import Mathlib

/-!
Shallow embedding of `src/preventScrollBugsIfNeeded.ts`.

The repository is a single browser utility: `preventScrollBugsIfNeeded` is
called from a `touchstart` handler, walks up the DOM from the touch target
looking for the nearest element carrying the CSS class `"scrollable"`,
computes scroll-capability flags from that element's geometry, nudges its
scroll offset off an exact edge, and registers a `touchmove`/`touchend`
listener pair on the document body.  The `touchmove` closure decides whether
to suppress the event (preventDefault + stopPropagation + keyboard dismiss);
the `touchend` closure removes both listeners.

Embedding choices:
* A DOM element is a record of its class list and scroll geometry; the
  ancestor chain of the touch target (touch target first, up to but
  excluding `document.body`) is a `List Elem`.  The while loop
  `while (target && target !== document.body)` terminates either at the
  body or when the chain is exhausted, so the list model covers both.
* DOM pixel metrics and touch coordinates are modelled as `Int`.
* Mutation of the found element's `scrollTop`/`scrollLeft` is modelled by
  returning the updated ancestor chain.
* The unguarded JavaScript access `event.touches[0].clientY` throws a
  TypeError when `touches` is empty; the embedding returns `none` there
  (`none` = unhandled runtime fault), and `some` for a completed run.
* The closure state captured by `onTouchMove` (`startY`,
  `scrollStartedFromTop`, `hasVerticalScroll`, `hasHorizontalScroll`) is
  reified as `GestureState`; `alwaysPreventPullToRefresh` is passed along.
* The document body's listener registry is modelled separately as
  `ListenerState` (one list of gesture identifiers per event kind, a
  gesture's closures being identified by the gesture that created them),
  with `addEventListener` appending and `removeEventListener` erasing one
  matching entry.
-/

/-- A DOM element as seen by the guard: CSS classes plus scroll geometry.
Corresponds to the fields of `HTMLElement` read or written by the source. -/
structure Elem where
  classes : List String
  scrollTop : Int
  scrollLeft : Int
  scrollHeight : Int
  clientHeight : Int
  scrollWidth : Int
  clientWidth : Int
deriving Repr, DecidableEq

/-- One touch point; only `clientY` is ever read by the source. -/
structure Touch where
  clientY : Int
deriving Repr, DecidableEq

/-- A `TouchEvent`: its (possibly empty) list of touch points. -/
structure TouchEvent where
  touches : List Touch
deriving Repr, DecidableEq

/-- The local state of one gesture, captured by the `onTouchMove` closure:
`startY`, `scrollStartedFromTop`, `hasVerticalScroll`, `hasHorizontalScroll`
from the source. -/
structure GestureState where
  startY : Int
  scrollStartedFromTop : Bool
  hasVerticalScroll : Bool
  hasHorizontalScroll : Bool
deriving Repr, DecidableEq

/-- Step 1 of the source: the while loop
`while (target && target !== document.body) { if (classList.contains('scrollable')) break; target = target.parentNode }`.
Splits the ancestor chain into the walked-over unmarked ancestors and, when
found, the first element carrying the `"scrollable"` class together with the
remaining (farther) ancestors. -/
def findScrollableSplit : List Elem → List Elem × Option (Elem × List Elem)
  | [] => ([], none)
  | e :: rest =>
    if "scrollable" ∈ e.classes then
      ([], some (e, rest))
    else
      let r := findScrollableSplit rest
      (e :: r.1, r.2)

/-- Step 2 of the source: the edge-of-scroll correction applied to the found
`target`.  Returns the updated element, the recorded `startY` and
`scrollStartedFromTop` (which keep their initial values `0` / `false` unless
the vertical-top branch runs).  Returns `none` when the source would fault on
`event.touches[0]` with an empty touch list. -/
def fixScrollEdges (event : TouchEvent) (t : Elem) : Option (Elem × Int × Bool) :=
  if t.scrollHeight > t.clientHeight then
    if t.scrollTop = 0 then
      match event.touches with
      | [] => none
      | touch :: _ => some ({ t with scrollTop := 1 }, touch.clientY, true)
    else if t.scrollTop = t.scrollHeight - t.clientHeight then
      some ({ t with scrollTop := t.scrollHeight - t.clientHeight - 1 }, 0, false)
    else
      some (t, 0, false)
  else if t.scrollWidth > t.clientWidth then
    if t.scrollLeft = 0 then
      some ({ t with scrollLeft := 1 }, 0, false)
    else if t.scrollLeft = t.scrollWidth - t.clientWidth then
      some ({ t with scrollLeft := t.scrollWidth - t.clientWidth - 1 }, 0, false)
    else
      some (t, 0, false)
  else
    some (t, 0, false)

/-- The body of `preventScrollBugsIfNeeded` up to listener registration:
steps 1 and 2 of the source.  Input is the touchstart event and the ancestor
chain of the touch target (touch target first, excluding the document body);
output is the updated chain together with the gesture state captured by the
`onTouchMove` closure, or `none` on the unguarded `touches[0]` fault. -/
def preventScrollBugsIfNeeded (event : TouchEvent) (chain : List Elem) :
    Option (List Elem × GestureState) :=
  match findScrollableSplit chain with
  | (_, none) =>
      some (chain, ⟨0, false, false, false⟩)
  | (walked, some (t, rest)) =>
      let hasVerticalScroll := decide (t.scrollHeight > t.clientHeight)
      let hasHorizontalScroll := decide (t.scrollWidth > t.clientWidth)
      match fixScrollEdges event t with
      | none => none
      | some (t2, startY, scrollStartedFromTop) =>
          some (walked ++ t2 :: rest,
            ⟨startY, scrollStartedFromTop, hasVerticalScroll, hasHorizontalScroll⟩)

/-- The observable effects of one `touchmove` dispatch: whether the closure
called `preventDefault`, `stopPropagation` and `hideKeyboradIfNeeded`.  The
source always performs the three together. -/
structure MoveEffects where
  defaultPrevented : Bool
  propagationStopped : Bool
  keyboardDismisserInvoked : Bool
deriving Repr, DecidableEq

/-- Step 3 of the source: the `onTouchMove` closure.  `none` models the
unguarded `event.touches[0]` fault in branch 3.1. -/
def onTouchMove (g : GestureState) (alwaysPreventPullToRefresh : Bool)
    (event : TouchEvent) : Option MoveEffects :=
  if g.hasVerticalScroll && g.scrollStartedFromTop then
    match event.touches with
    | [] => none
    | touch :: _ =>
      let moveY := touch.clientY
      if moveY > g.startY then
        some ⟨true, true, true⟩
      else
        some ⟨false, false, false⟩
  else if alwaysPreventPullToRefresh then
    if !g.hasVerticalScroll && !g.hasHorizontalScroll then
      some ⟨true, true, true⟩
    else
      some ⟨false, false, false⟩
  else
    some ⟨false, false, false⟩

/-- The currently focused element (`document.activeElement`) as inspected by
`hideKeyboradIfNeeded`: whether it is an `HTMLElement`, its `tagName`, and
its `type` attribute (`none` when `getAttribute` returns null). -/
structure ActiveElem where
  isHTMLElement : Bool
  tagName : String
  typeAttr : Option String
deriving Repr, DecidableEq

/-- The `hideKeyboradIfNeeded` helper (name as in the source).  Input is
`document.activeElement` (`none` when nothing is focused); the result is
`true` exactly when the source calls `blur()`. -/
def hideKeyboradIfNeeded (activeElement : Option ActiveElem) : Bool :=
  match activeElement with
  | none => false
  | some el =>
    if el.isHTMLElement then
      let elementTag := el.tagName.toLower
      let elementType := (el.typeAttr.getD "").toLower
      if elementTag == "input" && (elementType == "text" || elementType == "password") then
        true
      else
        false
    else
      false

/-- The document body's listener registry, the one resource shared across
gestures: the registered `touchmove` and `touchend` listeners, each
identified by the gesture whose invocation of the guard created its closure. -/
structure ListenerState where
  touchmoveListeners : List Nat
  touchendListeners : List Nat
deriving Repr, DecidableEq

/-- The two `addEventListener` calls at the end of the guard: register the
gesture's `onTouchMove` and `onTouchEnd` closures on the document body. -/
def addGestureListeners (s : ListenerState) (g : Nat) : ListenerState :=
  { touchmoveListeners := s.touchmoveListeners ++ [g]
    touchendListeners := s.touchendListeners ++ [g] }

/-- The `onTouchEnd` closure of the source: remove both of this gesture's
listeners from the document body. -/
def onTouchEnd (s : ListenerState) (g : Nat) : ListenerState :=
  { touchmoveListeners := s.touchmoveListeners.erase g
    touchendListeners := s.touchendListeners.erase g }

/-- A gesture-lifecycle event as seen by the listener registry. -/
inductive GestureEvent
  | touchmove
  | touchend
deriving Repr, DecidableEq

/-- Effect of one dispatched event on the registry for gesture `g`: the
`onTouchMove` closure never touches the registry, the `onTouchEnd` closure
deregisters both listeners. -/
def dispatchListenerEffect (g : Nat) (s : ListenerState) : GestureEvent → ListenerState
  | GestureEvent.touchmove => s
  | GestureEvent.touchend => onTouchEnd s g

/-- A marked element with room to scroll vertically, sitting at the exact top
edge: content height 500, visible height 200, offset 0 (the worked example of
the spec). -/
def vertTopElem : Elem :=
  { classes := ["scrollable"], scrollTop := 0, scrollLeft := 0,
    scrollHeight := 500, clientHeight := 200, scrollWidth := 100, clientWidth := 100 }

/-- An unmarked wrapper element with no scroll room in either axis. -/
def plainElem : Elem :=
  { classes := ["wrapper"], scrollTop := 0, scrollLeft := 0,
    scrollHeight := 200, clientHeight := 200, scrollWidth := 100, clientWidth := 100 }

/-- A marked element with horizontal scroll room only, at the exact left edge. -/
def horizElem : Elem :=
  { classes := ["scrollable"], scrollTop := 0, scrollLeft := 0,
    scrollHeight := 200, clientHeight := 200, scrollWidth := 400, clientWidth := 100 }

/-- When no element of the chain carries the marker, the walk exhausts the
whole chain and finds nothing. -/
theorem findScrollableSplit_of_not_found (chain : List Elem)
    (h : ∀ e ∈ chain, "scrollable" ∉ e.classes) :
    findScrollableSplit chain = (chain, none) := by
  induction chain with
  | nil => rfl
  | cons e rest ih =>
    simp only [findScrollableSplit]
    rw [if_neg (h e (by simp)), ih (fun x hx => h x (by simp [hx]))]

/-- When the chain consists of unmarked ancestors followed by a marked
element, the walk stops exactly at that marked element. -/
theorem findScrollableSplit_found (walked : List Elem) (t : Elem) (rest : List Elem)
    (hw : ∀ e ∈ walked, "scrollable" ∉ e.classes)
    (ht : "scrollable" ∈ t.classes) :
    findScrollableSplit (walked ++ t :: rest) = (walked, some (t, rest)) := by
  induction walked with
  | nil => simp [findScrollableSplit, ht]
  | cons e w ih =>
    rw [List.cons_append]
    simp only [findScrollableSplit]
    rw [if_neg (hw e (by simp)), ih (fun x hx => hw x (by simp [hx]))]

/-- A successful walk decomposes the chain it walked over. -/
theorem chain_eq_of_findScrollableSplit (chain walked : List Elem) (t : Elem)
    (rest : List Elem)
    (h : findScrollableSplit chain = (walked, some (t, rest))) :
    chain = walked ++ t :: rest := by
  induction chain generalizing walked with
  | nil => simp [findScrollableSplit] at h
  | cons e c ih =>
    simp only [findScrollableSplit] at h
    by_cases he : "scrollable" ∈ e.classes
    · rw [if_pos he] at h
      obtain ⟨rfl, rfl, rfl⟩ : [] = walked ∧ e = t ∧ c = rest := by
        simpa [Prod.ext_iff] using h
      simp
    · rw [if_neg he] at h
      obtain ⟨h1, h2⟩ : e :: (findScrollableSplit c).1 = walked ∧
          (findScrollableSplit c).2 = some (t, rest) := by
        simpa [Prod.ext_iff] using h
      subst h1
      have hc := ih (findScrollableSplit c).1 (by rw [← h2])
      rw [List.cons_append, ← hc]

/-- C7: the keyboard dismisser blurs the focused element if and only if an
element is focused, it is an HTML element, its tag name (lowercased) is the
generic input control `"input"`, and its `type` attribute compared
case-insensitively equals `"text"` or `"password"`; in every other case (no
focused element, non-HTML-element focus, other tag, other or absent type
attribute) it performs no action. -/
theorem hideKeyborad_blurs_iff (ae : Option ActiveElem) :
    hideKeyboradIfNeeded ae = true ↔
      ∃ el, ae = some el ∧ el.isHTMLElement = true ∧
        el.tagName.toLower = "input" ∧
        ((el.typeAttr.getD "").toLower = "text" ∨
          (el.typeAttr.getD "").toLower = "password") := by
  cases ae with
  | none => simp [hideKeyboradIfNeeded]
  | some el =>
    simp only [hideKeyboradIfNeeded, Option.some.injEq]
    by_cases hh : el.isHTMLElement = true
    · rw [if_pos hh]
      by_cases hc : (el.tagName.toLower == "input" &&
          ((el.typeAttr.getD "").toLower == "text" ||
            (el.typeAttr.getD "").toLower == "password")) = true
      · rw [if_pos hc]
        simp only [Bool.and_eq_true, Bool.or_eq_true, beq_iff_eq] at hc
        simp only [true_iff]
        exact ⟨el, rfl, hh, hc.1, hc.2⟩
      · rw [if_neg hc]
        simp only [Bool.and_eq_true, Bool.or_eq_true, beq_iff_eq] at hc
        simp only [Bool.false_eq_true, false_iff]
        rintro ⟨el2, heq, h2, h3, h4⟩
        cases heq
        exact hc ⟨h3, h4⟩
    · rw [if_neg hh]
      simp only [Bool.false_eq_true, false_iff]
      rintro ⟨el2, heq, h2, h3, h4⟩
      cases heq
      exact hh h2

/-- C2: with `alwaysPreventPullToRefresh = true`, whenever the `touchmove`
closure reaches the always-prevent policy branch (that is, the top-start
branch does not apply), it suppresses the event — default action cancelled,
propagation stopped, keyboard dismisser invoked — exactly when both
`hasVerticalScroll` and `hasHorizontalScroll` are false, and performs no
suppression when either flag is true. -/
theorem touchmove_always_prevent_branch
    (g : GestureState) (mev : TouchEvent)
    (hb : (g.hasVerticalScroll && g.scrollStartedFromTop) = false) :
    onTouchMove g true mev =
      some (if !g.hasVerticalScroll && !g.hasHorizontalScroll then
              ⟨true, true, true⟩
            else ⟨false, false, false⟩) := by
  unfold onTouchMove
  rw [hb]
  simp only [Bool.false_eq_true, if_false, if_true]
  by_cases hc : (!g.hasVerticalScroll && !g.hasHorizontalScroll) = true
  · rw [if_pos hc, if_pos hc]
  · rw [if_neg hc, if_neg hc]

/-- Witness for C2: a gesture outside any scrollable region (both flags
false) has its `touchmove` suppressed under the always-prevent policy. -/
theorem touchmove_always_prevent_branch_witness :
    onTouchMove ⟨0, false, false, false⟩ true ⟨[⟨10⟩]⟩ =
      some ⟨true, true, true⟩ := by
  have h := touchmove_always_prevent_branch ⟨0, false, false, false⟩ ⟨[⟨10⟩]⟩ (by decide)
  rw [h]
  decide

/-- C8: when no ancestor of the touch target up to (and excluding) the
document body carries the `"scrollable"` marker, both scroll flags stay
false and the invocation leaves the whole ancestor chain — in particular
every `scrollTop` and `scrollLeft` — unchanged. -/
theorem no_marker_no_flags_no_nudge
    (ev : TouchEvent) (chain : List Elem)
    (h : ∀ e ∈ chain, "scrollable" ∉ e.classes) :
    preventScrollBugsIfNeeded ev chain = some (chain, ⟨0, false, false, false⟩) := by
  unfold preventScrollBugsIfNeeded
  rw [findScrollableSplit_of_not_found chain h]

/-- Witness for C8: a single unmarked wrapper element is returned untouched
with both flags false. -/
theorem no_marker_no_flags_no_nudge_witness :
    preventScrollBugsIfNeeded ⟨[⟨10⟩]⟩ [plainElem] =
      some ([plainElem], ⟨0, false, false, false⟩) :=
  no_marker_no_flags_no_nudge ⟨[⟨10⟩]⟩ [plainElem] (by decide)

/-- Behaviour of the edge-of-scroll correction when the found element has
vertical scroll room: top edge records the touch Y and nudges to 1, bottom
edge nudges to maximum minus 1, strictly-between offsets are untouched. -/
theorem fixScrollEdges_vertical (ev : TouchEvent) (t : Elem)
    (hv : t.scrollHeight > t.clientHeight)
    (touch : Touch) (trest : List Touch) (hev : ev.touches = touch :: trest) :
    fixScrollEdges ev t =
      if t.scrollTop = 0 then
        some ({ t with scrollTop := 1 }, touch.clientY, true)
      else if t.scrollTop = t.scrollHeight - t.clientHeight then
        some ({ t with scrollTop := t.scrollHeight - t.clientHeight - 1 }, 0, false)
      else
        some (t, 0, false) := by
  unfold fixScrollEdges
  rw [if_pos hv]
  by_cases h0 : t.scrollTop = 0
  · rw [if_pos h0, if_pos h0]
    simp only [hev]
  · rw [if_neg h0, if_neg h0]

/-- C3: whenever the nearest marked ancestor has vertical scroll room, an
invocation at offset 0 records `startY` from the first touch point, sets
`scrollStartedFromTop`, and nudges the offset to 1; at the maximum offset
`scrollHeight - clientHeight` it nudges to the maximum minus 1 with
`scrollStartedFromTop` still false; at any other offset the element is left
unchanged. -/
theorem touchstart_vertical_edge_nudge
    (chain walked tail : List Elem) (t : Elem) (ev : TouchEvent)
    (touch : Touch) (trest : List Touch)
    (hsplit : findScrollableSplit chain = (walked, some (t, tail)))
    (hv : t.scrollHeight > t.clientHeight)
    (hev : ev.touches = touch :: trest) :
    preventScrollBugsIfNeeded ev chain =
      if t.scrollTop = 0 then
        some (walked ++ { t with scrollTop := 1 } :: tail,
          ⟨touch.clientY, true, true, decide (t.scrollWidth > t.clientWidth)⟩)
      else if t.scrollTop = t.scrollHeight - t.clientHeight then
        some (walked ++ { t with scrollTop := t.scrollHeight - t.clientHeight - 1 } :: tail,
          ⟨0, false, true, decide (t.scrollWidth > t.clientWidth)⟩)
      else
        some (walked ++ t :: tail,
          ⟨0, false, true, decide (t.scrollWidth > t.clientWidth)⟩) := by
  have hfix := fixScrollEdges_vertical ev t hv touch trest hev
  unfold preventScrollBugsIfNeeded
  simp only [hsplit]
  rw [hfix]
  by_cases h0 : t.scrollTop = 0
  · rw [if_pos h0, if_pos h0]
    simp [decide_eq_true hv]
  · rw [if_neg h0, if_neg h0]
    by_cases hmax : t.scrollTop = t.scrollHeight - t.clientHeight
    · rw [if_pos hmax, if_pos hmax]
      simp [decide_eq_true hv]
    · rw [if_neg hmax, if_neg hmax]
      simp [decide_eq_true hv]

/-- Witness for C3: the spec's worked example — offset 0, content height 500,
visible height 200 — ends with offset 1, `scrollStartedFromTop` true and the
touch Y (100) captured. -/
theorem touchstart_vertical_edge_nudge_witness :
    preventScrollBugsIfNeeded ⟨[⟨100⟩]⟩ [vertTopElem] =
      some ([{ vertTopElem with scrollTop := 1 }], ⟨100, true, true, false⟩) := by
  have h := touchstart_vertical_edge_nudge [vertTopElem] [] [] vertTopElem
      ⟨[⟨100⟩]⟩ ⟨100⟩ [] (by decide) (by decide) rfl
  rw [h]
  decide

/-- C1: in a gesture whose touchstart produced `hasVerticalScroll` and
`scrollStartedFromTop` both true (vertical-scroll ancestor found at offset
0), every `touchmove` whose first touch Y is strictly greater than the
recorded `startY` is suppressed — default cancelled, propagation stopped,
keyboard dismisser invoked — and every `touchmove` with Y less than or equal
to `startY` causes no suppression, whatever the always-prevent flag. -/
theorem touchmove_top_start_suppression
    (ev : TouchEvent) (chain chain2 : List Elem) (g : GestureState)
    (_hrun : preventScrollBugsIfNeeded ev chain = some (chain2, g))
    (hv : g.hasVerticalScroll = true) (hs : g.scrollStartedFromTop = true)
    (ap : Bool) (mev : TouchEvent) (touch : Touch) (mrest : List Touch)
    (hm : mev.touches = touch :: mrest) :
    onTouchMove g ap mev =
      some (if touch.clientY > g.startY then ⟨true, true, true⟩
            else ⟨false, false, false⟩) := by
  unfold onTouchMove
  have hcond : (g.hasVerticalScroll && g.scrollStartedFromTop) = true := by
    rw [hv, hs]
    rfl
  rw [if_pos hcond]
  simp only [hm]
  by_cases hY : touch.clientY > g.startY
  · rw [if_pos hY, if_pos hY]
  · rw [if_neg hY, if_neg hY]

/-- Witness for C1: after a touchstart at Y = 100 on the top-edge vertical
scroller, a touchmove at Y = 150 is fully suppressed. -/
theorem touchmove_top_start_suppression_witness :
    onTouchMove ⟨100, true, true, false⟩ false ⟨[⟨150⟩]⟩ =
      some ⟨true, true, true⟩ := by
  have h := touchmove_top_start_suppression ⟨[⟨100⟩]⟩ [vertTopElem]
      [{ vertTopElem with scrollTop := 1 }] ⟨100, true, true, false⟩
      (by decide) rfl rfl false ⟨[⟨150⟩]⟩ ⟨150⟩ [] rfl
  rw [h]
  decide

/-- Replaying any number of `touchmove` dispatches leaves the document body's
listener registry unchanged: the `onTouchMove` closure never registers or
removes listeners. -/
theorem foldl_touchmoves (g : Nat) (n : Nat) (s0 : ListenerState) :
    (List.replicate n GestureEvent.touchmove).foldl (dispatchListenerEffect g) s0 = s0 := by
  induction n generalizing s0 with
  | zero => rfl
  | succ k ih =>
    rw [List.replicate_succ, List.foldl_cons]
    exact ih s0

/-- C5: an invocation of the guard registers exactly one `touchmove` and one
`touchend` listener on the document body, and after any number of
`touchmove` dispatches the first `touchend` removes both, restoring the
registry exactly to its prior state — a later gesture sees no leftovers. -/
theorem listener_pair_lifecycle
    (s : ListenerState) (g : Nat) (n : Nat)
    (hm : g ∉ s.touchmoveListeners) (he : g ∉ s.touchendListeners) :
    (addGestureListeners s g).touchmoveListeners.count g = 1 ∧
    (addGestureListeners s g).touchendListeners.count g = 1 ∧
    (List.replicate n GestureEvent.touchmove ++ [GestureEvent.touchend]).foldl
      (dispatchListenerEffect g) (addGestureListeners s g) = s := by
  refine ⟨?_, ?_, ?_⟩
  · simp [addGestureListeners, List.count_append, List.count_eq_zero_of_not_mem hm]
  · simp [addGestureListeners, List.count_append, List.count_eq_zero_of_not_mem he]
  · rw [List.foldl_append, foldl_touchmoves]
    simp only [List.foldl_cons, List.foldl_nil]
    simp [dispatchListenerEffect, onTouchEnd, addGestureListeners,
      List.erase_append_right _ hm, List.erase_append_right _ he]

/-- Witness for C5: from an empty registry, gesture 7 registers one listener
of each kind and, after three touchmoves and a touchend, the registry is
empty again. -/
theorem listener_pair_lifecycle_witness :
    (addGestureListeners ⟨[], []⟩ 7).touchmoveListeners.count 7 = 1 ∧
    (addGestureListeners ⟨[], []⟩ 7).touchendListeners.count 7 = 1 ∧
    (List.replicate 3 GestureEvent.touchmove ++ [GestureEvent.touchend]).foldl
      (dispatchListenerEffect 7) (addGestureListeners ⟨[], []⟩ 7) = ⟨[], []⟩ :=
  listener_pair_lifecycle ⟨[], []⟩ 7 3 (by decide) (by decide)

/-- The edge-of-scroll correction cannot fault when the event carries at
least one touch point. -/
theorem fixScrollEdges_isSome (ev : TouchEvent) (t : Elem)
    (hne : ev.touches ≠ []) :
    (fixScrollEdges ev t).isSome = true := by
  rcases htouch : ev.touches with _ | ⟨a, l⟩
  · exact absurd htouch hne
  · unfold fixScrollEdges
    rw [htouch]
    split_ifs <;> rfl

/-- The guard cannot fault at touchstart when the event carries at least one
touch point. -/
theorem preventScrollBugs_isSome_of_touches (ev : TouchEvent)
    (chain : List Elem) (hne : ev.touches ≠ []) :
    (preventScrollBugsIfNeeded ev chain).isSome = true := by
  unfold preventScrollBugsIfNeeded
  rcases hsp : findScrollableSplit chain with ⟨walked, found⟩
  rcases found with _ | ⟨t, tail⟩
  · simp [hsp]
  · simp only [hsp]
    rcases hfix : fixScrollEdges ev t with _ | ⟨t2, sY, sTop⟩
    · exfalso
      have hs := fixScrollEdges_isSome ev t hne
      rw [hfix] at hs
      simp at hs
    · rfl

/-- C9: with at least one touch point on every event, both the touchstart
guard and the touchmove closure run to completion (no fault); with zero
touch points, the unguarded first-touch access faults — at touchstart when
the vertical-scroll target is at offset 0, and in the touchmove closure when
`scrollStartedFromTop` is set. -/
theorem wellformed_touch_no_fault :
    (∀ (ev : TouchEvent) (chain : List Elem), ev.touches ≠ [] →
        (preventScrollBugsIfNeeded ev chain).isSome = true) ∧
    (∀ (g : GestureState) (ap : Bool) (ev : TouchEvent), ev.touches ≠ [] →
        (onTouchMove g ap ev).isSome = true) ∧
    preventScrollBugsIfNeeded ⟨[]⟩ [vertTopElem] = none ∧
    onTouchMove ⟨0, true, true, false⟩ true ⟨[]⟩ = none := by
  refine ⟨fun ev chain hne => preventScrollBugs_isSome_of_touches ev chain hne,
    fun g ap ev hne => ?_, by decide, by decide⟩
  rcases htouch : ev.touches with _ | ⟨a, l⟩
  · exact absurd htouch hne
  · simp only [onTouchMove, htouch]
    split_ifs <;> rfl

/-- Witness for C9: concrete one-touch events complete without fault both at
touchstart and at touchmove. -/
theorem wellformed_touch_no_fault_witness :
    (preventScrollBugsIfNeeded ⟨[⟨5⟩]⟩ [vertTopElem]).isSome = true ∧
    (onTouchMove ⟨0, true, true, false⟩ true ⟨[⟨5⟩]⟩).isSome = true :=
  ⟨wellformed_touch_no_fault.1 ⟨[⟨5⟩]⟩ [vertTopElem] (by decide),
    wellformed_touch_no_fault.2.1 ⟨0, true, true, false⟩ true ⟨[⟨5⟩]⟩ (by decide)⟩

/-- C4: when the touch target's ancestor chain is some unmarked elements
followed by a marked element (with arbitrary farther ancestors, marked or
not), the gesture state's scroll flags are computed from that nearest marked
element's geometry alone. -/
theorem scroll_flags_from_nearest_marked
    (walked tail : List Elem) (t : Elem) (ev : TouchEvent)
    (hw : ∀ e ∈ walked, "scrollable" ∉ e.classes)
    (ht : "scrollable" ∈ t.classes)
    (chain2 : List Elem) (g : GestureState)
    (hrun : preventScrollBugsIfNeeded ev (walked ++ t :: tail) = some (chain2, g)) :
    g.hasVerticalScroll = decide (t.scrollHeight > t.clientHeight) ∧
    g.hasHorizontalScroll = decide (t.scrollWidth > t.clientWidth) := by
  unfold preventScrollBugsIfNeeded at hrun
  simp only [findScrollableSplit_found walked t tail hw ht] at hrun
  cases hfix : fixScrollEdges ev t with
  | none =>
    rw [hfix] at hrun
    simp at hrun
  | some r =>
    obtain ⟨t2, sY, sTop⟩ := r
    rw [hfix] at hrun
    simp only [Option.some.injEq, Prod.mk.injEq] at hrun
    obtain ⟨-, hg⟩ := hrun
    rw [← hg]
    exact ⟨rfl, rfl⟩

/-- Witness for C4: target nested under an unmarked wrapper, nearest marked
ancestor vertical-only, a farther marked horizontal ancestor present — the
flags are the nearest marked ancestor's. -/
theorem scroll_flags_from_nearest_marked_witness :
    (⟨100, true, true, false⟩ : GestureState).hasVerticalScroll =
        decide (vertTopElem.scrollHeight > vertTopElem.clientHeight) ∧
    (⟨100, true, true, false⟩ : GestureState).hasHorizontalScroll =
        decide (vertTopElem.scrollWidth > vertTopElem.clientWidth) :=
  scroll_flags_from_nearest_marked [plainElem] [horizElem] vertTopElem ⟨[⟨100⟩]⟩
    (by decide) (by decide)
    [plainElem, { vertTopElem with scrollTop := 1 }, horizElem] ⟨100, true, true, false⟩
    (by decide)

/-- C6: the horizontal edge-nudge branch runs only when the found element has
no vertical scroll room: with vertical scroll present no `scrollLeft` in the
chain changes, and with vertical absent but horizontal present the call
applies the 0-to-1 / max-to-max-minus-1 nudge to `scrollLeft` using
`scrollWidth`/`clientWidth` (and touches no `scrollTop`). -/
theorem horizontal_nudge_only_without_vertical
    (chain walked tail : List Elem) (t : Elem) (ev : TouchEvent)
    (hsplit : findScrollableSplit chain = (walked, some (t, tail))) :
    ((t.scrollHeight > t.clientHeight) →
      ∀ (chain2 : List Elem) (g : GestureState),
        preventScrollBugsIfNeeded ev chain = some (chain2, g) →
        chain2.map Elem.scrollLeft = chain.map Elem.scrollLeft) ∧
    (¬(t.scrollHeight > t.clientHeight) → (t.scrollWidth > t.clientWidth) →
      preventScrollBugsIfNeeded ev chain =
        some (walked ++
          (if t.scrollLeft = 0 then { t with scrollLeft := 1 }
           else if t.scrollLeft = t.scrollWidth - t.clientWidth then
             { t with scrollLeft := t.scrollWidth - t.clientWidth - 1 }
           else t) :: tail,
          ⟨0, false, false, true⟩)) := by
  have hchain := chain_eq_of_findScrollableSplit chain walked t tail hsplit
  constructor
  · intro hv chain2 g hrun
    unfold preventScrollBugsIfNeeded at hrun
    simp only [hsplit] at hrun
    unfold fixScrollEdges at hrun
    rw [if_pos hv] at hrun
    by_cases h0 : t.scrollTop = 0
    · rw [if_pos h0] at hrun
      cases htouch : ev.touches with
      | nil =>
        rw [htouch] at hrun
        simp at hrun
      | cons a l =>
        rw [htouch] at hrun
        simp only [Option.some.injEq, Prod.mk.injEq] at hrun
        obtain ⟨hc, -⟩ := hrun
        subst hchain
        rw [← hc]
        simp [List.map_append]
    · rw [if_neg h0] at hrun
      by_cases hmax : t.scrollTop = t.scrollHeight - t.clientHeight
      · rw [if_pos hmax] at hrun
        simp only [Option.some.injEq, Prod.mk.injEq] at hrun
        obtain ⟨hc, -⟩ := hrun
        subst hchain
        rw [← hc]
        simp [List.map_append]
      · rw [if_neg hmax] at hrun
        simp only [Option.some.injEq, Prod.mk.injEq] at hrun
        obtain ⟨hc, -⟩ := hrun
        subst hchain
        rw [← hc]
  · intro hv hh
    unfold preventScrollBugsIfNeeded
    simp only [hsplit]
    unfold fixScrollEdges
    rw [if_neg hv, if_pos hh]
    have hvd : decide (t.scrollHeight > t.clientHeight) = false := decide_eq_false hv
    have hhd : decide (t.scrollWidth > t.clientWidth) = true := decide_eq_true hh
    by_cases h0 : t.scrollLeft = 0
    · rw [if_pos h0, if_pos h0]
      simp [hvd, hhd]
    · rw [if_neg h0, if_neg h0]
      by_cases hmax : t.scrollLeft = t.scrollWidth - t.clientWidth
      · rw [if_pos hmax, if_pos hmax]
        simp [hvd, hhd]
      · rw [if_neg hmax, if_neg hmax]
        simp [hvd, hhd]

/-- Witness for C6: a horizontal-only scroller at the left edge gets its
`scrollLeft` nudged to 1 while the vertical branch is skipped. -/
theorem horizontal_nudge_only_without_vertical_witness :
    preventScrollBugsIfNeeded ⟨[⟨100⟩]⟩ [horizElem] =
      some ([{ horizElem with scrollLeft := 1 }], ⟨0, false, false, true⟩) := by
  have h := (horizontal_nudge_only_without_vertical [horizElem] [] [] horizElem
      ⟨[⟨100⟩]⟩ (by decide)).2 (by decide) (by decide)
  rw [h]
  decide

/-- When the produced gesture state has no vertical scroll, the touchstart
phase can change at most `scrollLeft` values in the chain: erasing
`scrollLeft` everywhere makes the output chain equal to the input chain. -/
theorem map_clear_scrollLeft_of_not_vertical
    (ev : TouchEvent) (chain chain2 : List Elem) (g : GestureState)
    (hrun : preventScrollBugsIfNeeded ev chain = some (chain2, g))
    (hv : g.hasVerticalScroll = false) :
    chain2.map (fun e => { e with scrollLeft := 0 }) =
      chain.map (fun e => { e with scrollLeft := 0 }) := by
  unfold preventScrollBugsIfNeeded at hrun
  rcases hsp : findScrollableSplit chain with ⟨walked, found⟩
  rcases found with _ | ⟨t, tail⟩ <;> simp only [hsp] at hrun
  · simp only [Option.some.injEq, Prod.mk.injEq] at hrun
    obtain ⟨hc, -⟩ := hrun
    rw [hc]
  · have hchain := chain_eq_of_findScrollableSplit chain walked t tail hsp
    cases hfix : fixScrollEdges ev t with
    | none =>
      rw [hfix] at hrun
      simp at hrun
    | some r =>
      obtain ⟨t2, sY, sTop⟩ := r
      rw [hfix] at hrun
      simp only [Option.some.injEq, Prod.mk.injEq] at hrun
      obtain ⟨hc, hg⟩ := hrun
      have hvp : ¬ (t.scrollHeight > t.clientHeight) := by
        rw [← hg] at hv
        simpa using hv
      unfold fixScrollEdges at hfix
      rw [if_neg hvp] at hfix
      subst hchain
      rw [← hc]
      by_cases hh : t.scrollWidth > t.clientWidth
      · rw [if_pos hh] at hfix
        by_cases h0 : t.scrollLeft = 0
        · rw [if_pos h0] at hfix
          obtain ⟨rfl, -, -⟩ : { t with scrollLeft := 1 } = t2 ∧ (0 : Int) = sY ∧
              false = sTop := by simpa [Prod.ext_iff] using hfix
          simp [List.map_append]
        · rw [if_neg h0] at hfix
          by_cases hmax : t.scrollLeft = t.scrollWidth - t.clientWidth
          · rw [if_pos hmax] at hfix
            obtain ⟨rfl, -, -⟩ : { t with scrollLeft := t.scrollWidth - t.clientWidth - 1 } = t2 ∧
                (0 : Int) = sY ∧ false = sTop := by simpa [Prod.ext_iff] using hfix
            simp [List.map_append]
          · rw [if_neg hmax] at hfix
            obtain ⟨rfl, -, -⟩ : t = t2 ∧ (0 : Int) = sY ∧ false = sTop := by
              simpa [Prod.ext_iff] using hfix
            simp [List.map_append]
      · rw [if_neg hh] at hfix
        obtain ⟨rfl, -, -⟩ : t = t2 ∧ (0 : Int) = sY ∧ false = sTop := by
          simpa [Prod.ext_iff] using hfix
        simp

/-- C10: a gesture whose state has horizontal but not vertical scroll never
suppresses any `touchmove` and never invokes the keyboard dismisser,
whatever the always-prevent flag and whatever the move event; the only thing
such an invocation may have changed is a `scrollLeft` offset. -/
theorem horizontal_gesture_never_suppresses
    (ev : TouchEvent) (chain chain2 : List Elem) (g : GestureState)
    (hrun : preventScrollBugsIfNeeded ev chain = some (chain2, g))
    (hv : g.hasVerticalScroll = false) (hh : g.hasHorizontalScroll = true)
    (ap : Bool) (mev : TouchEvent) :
    onTouchMove g ap mev = some ⟨false, false, false⟩ ∧
    chain2.map (fun e => { e with scrollLeft := 0 }) =
      chain.map (fun e => { e with scrollLeft := 0 }) := by
  refine ⟨?_, map_clear_scrollLeft_of_not_vertical ev chain chain2 g hrun hv⟩
  unfold onTouchMove
  rw [hv, hh]
  cases ap <;> simp

/-- Witness for C10: after a touchstart on the horizontal-only scroller,
a touchmove under the always-prevent policy is still not suppressed, and
only `scrollLeft` changed at touchstart. -/
theorem horizontal_gesture_never_suppresses_witness :
    onTouchMove ⟨0, false, false, true⟩ true ⟨[⟨150⟩]⟩ = some ⟨false, false, false⟩ ∧
    [{ horizElem with scrollLeft := 1 }].map (fun e => { e with scrollLeft := 0 }) =
      [horizElem].map (fun e => { e with scrollLeft := 0 }) :=
  horizontal_gesture_never_suppresses ⟨[⟨100⟩]⟩ [horizElem]
    [{ horizElem with scrollLeft := 1 }] ⟨0, false, false, true⟩
    (by decide) rfl rfl true ⟨[⟨150⟩]⟩
